import Mathlib

/-!
Shallow embedding of the Forecast-my-park frontend core: the
`/api/predict` and `/api/parks` route handlers, the `/api/health` probe,
the static park-coordinate table, and the dashboard's map-prediction
aggregation (`loadMapPredictions`).  Effectful TypeScript is modelled by
pure functions over an explicit outcome of each upstream `fetch`; the
wall-clock timestamp is passed in as a parameter.
-/

/-- JavaScript truthiness of an optional string value: `undefined`/`null`
and the empty string are falsy (`!body.park_id` in the route). -/
def strFalsy : Option String → Bool
  | none => true
  | some s => s == ""

/-- JavaScript truthiness of an optional number: `undefined`/`null`, `NaN`
(both modelled as `none`) and `0` are falsy (`!body.days_ahead`). -/
def intFalsy : Option Int → Bool
  | none => true
  | some n => n == 0

/-- JavaScript `o < k` for an optional number: comparisons against
`undefined`/`NaN` are false. -/
def jsLt (o : Option Int) (k : Int) : Bool :=
  match o with
  | none => false
  | some n => n < k

/-- JavaScript `o > k` for an optional number. -/
def jsGt (o : Option Int) (k : Int) : Bool :=
  match o with
  | none => false
  | some n => k < n

/-- JavaScript `a || b` for an optional string `a`: the empty string is
falsy, so it also falls through to the default. -/
def jsOrStr (a : Option String) (b : String) : String :=
  match a with
  | none => b
  | some s => if s == "" then b else s

/-- The parsed JSON body of a `POST /api/predict` request.  Every field may
be absent (`none`); the routes check presence via truthiness. -/
structure PredictBody where
  park_id : Option String
  start_date : Option String
  days_ahead : Option Int
deriving DecidableEq, Inhabited

/-- One record of the ML service's prediction payload
(`MLServicePrediction` in `predict/route.ts`). -/
structure MLServicePrediction where
  date : String
  predicted_visitors : Int
  lower_bound : Int
  upper_bound : Int
  confidence_interval : String
deriving DecidableEq, Inhabited

/-- The ML service's response body (`MLServiceResponse` in
`predict/route.ts`): `predictions` may be `null`, `error` may be absent. -/
structure MLServiceResponse where
  success : Bool
  park_id : String
  predictions : Option (List MLServicePrediction)
  error : Option String
deriving DecidableEq, Inhabited

/-- Outcome of the single upstream `fetch` a route may perform:
an HTTP response (with raw text and, when it parses as an
`MLServiceResponse`, the parsed JSON), a connection-level failure
(`TypeError` mentioning `fetch`), a timeout (`AbortError`), or any other
thrown error. -/
inductive FetchOutcome where
  | resp (status : Nat) (text : String) (json : Option MLServiceResponse)
  | connError
  | timeoutError
  | otherError
deriving DecidableEq, Inhabited

/-- A translated forecast point (`ds`/`yhat`/`yhat_lower`/`yhat_upper`). -/
structure PredictionPoint where
  ds : String
  yhat : Int
  yhat_lower : Int
  yhat_upper : Int
deriving DecidableEq, Inhabited

/-- Placeholder model-performance metrics attached to every response. -/
structure ModelPerformance where
  mape : Int
  mae : Int
  rmse : Int
deriving DecidableEq, Inhabited

/-- The JSON body of a successful `POST /api/predict` response:
`response_data` spread together with `timestamp` and `request_params`. -/
structure PredictOut where
  predictions : List PredictionPoint
  park_id : Option String
  confidence_level : Int
  model_performance : ModelPerformance
  timestamp : String
  request_params : PredictBody
deriving DecidableEq, Inhabited

/-- Result of the predict route: an error JSON with its HTTP status, or the
success body (HTTP 200). -/
inductive PredictResult where
  | err (status : Nat) (msg : String)
  | ok (out : PredictOut)
deriving DecidableEq, Inhabited

def missingFieldsMsg : String := "Missing required fields: park_id, start_date, days_ahead"

def daysAheadRangeMsg : String := "days_ahead must be between 1 and 365"

def mlUnavailableMsg : String := "ML service is currently unavailable. Please try again later."

def connectErrorMsg : String := "Unable to connect to ML service. Please check if the service is running."

def predictTimeoutMsg : String := "ML service request timed out. Please try again."

def unexpectedPredictMsg : String := "An unexpected error occurred while generating predictions."

namespace Predict

/-- The `POST /api/predict` handler of `predict/route.ts`, as a function of
the parsed body, the outcome the upstream `fetch` would have, and the
current timestamp.  The second component counts upstream calls actually
issued (0 when validation rejects the request first). -/
def POST (body : PredictBody) (fetch : FetchOutcome) (now : String) :
    PredictResult × Nat :=
  if strFalsy body.park_id || strFalsy body.start_date || intFalsy body.days_ahead then
    (.err 400 missingFieldsMsg, 0)
  else if jsLt body.days_ahead 1 || jsGt body.days_ahead 365 then
    (.err 400 daysAheadRangeMsg, 0)
  else
    (match fetch with
     | .connError => .err 503 connectErrorMsg
     | .timeoutError => .err 504 predictTimeoutMsg
     | .otherError => .err 500 unexpectedPredictMsg
     | .resp status text json =>
       if !(200 ≤ status && status < 300) then
         if 500 ≤ status then
           .err 503 mlUnavailableMsg
         else
           .err status ("ML service error: " ++ text)
       else
         match json with
         | none => .err 500 unexpectedPredictMsg
         | some mlResponse =>
           if !mlResponse.success || mlResponse.predictions == none then
             .err 400 (jsOrStr mlResponse.error "Failed to generate predictions")
           else
             .ok { predictions :=
                     (mlResponse.predictions.getD []).map (fun pred =>
                       { ds := pred.date
                         yhat := pred.predicted_visitors
                         yhat_lower := pred.lower_bound
                         yhat_upper := pred.upper_bound })
                   park_id := body.park_id
                   confidence_level := 80
                   model_performance := { mape := 0, mae := 0, rmse := 0 }
                   timestamp := now
                   request_params := body },
     1)

end Predict

/-- A latitude/longitude pair of the static coordinate table.  The source
literals are exact decimals; they are embedded as exact rationals. -/
structure Coord where
  lat : Rat
  lng : Rat
deriving DecidableEq, Inhabited

set_option maxHeartbeats 1600000 in
/-- The static `PARK_COORDINATES` record of `lib/parkCoordinates.ts`,
embedded as an association list (JavaScript record lookup by key). -/
def PARK_COORDINATES : List (String × Coord) := [
  ("YELL", ⟨44.428, -110.588⟩),
  ("GRCA", ⟨36.1069, -112.1129⟩),
  ("YOSE", ⟨37.8651, -119.5383⟩),
  ("ZION", ⟨37.2982, -113.0263⟩),
  ("ACAD", ⟨44.35, -68.21⟩),
  ("ARCH", ⟨38.68, -109.57⟩),
  ("ROMO", ⟨40.4, -105.58⟩),
  ("GRSM", ⟨35.6117, -83.4895⟩),
  ("OLYM", ⟨47.8021, -123.6044⟩),
  ("GLAC", ⟨48.7596, -113.787⟩),
  ("DEVA", ⟨36.5054, -117.0794⟩),
  ("JOTR", ⟨33.8734, -115.901⟩),
  ("BAND", ⟨35.7781, -106.2708⟩),
  ("CACO", ⟨42.0699, -70.0464⟩),
  ("STLI", ⟨40.6892, -74.0445⟩),
  ("GLEN", ⟨37.0042, -111.1892⟩),
  ("LAME", ⟨36.0905, -114.7366⟩),
  ("CURE", ⟨38.4619, -107.1817⟩),
  ("CAHA", ⟨35.2590, -75.5277⟩),
  ("ASIS", ⟨38.0593, -75.1458⟩),
  ("INDE", ⟨39.9496, -75.1503⟩),
  ("COLO", ⟨37.2707, -76.6135⟩),
  ("BOST", ⟨42.3601, -71.0589⟩),
  ("GETT", ⟨39.8309, -77.2361⟩),
  ("ANTI", ⟨39.4618, -77.7311⟩),
  ("BRCA", ⟨37.5930, -112.1871⟩),
  ("CANY", ⟨38.2, -109.93⟩),
  ("CARE", ⟨38.0877, -111.1660⟩),
  ("REDW", ⟨41.2132, -124.0046⟩),
  ("SHEN", ⟨38.2928, -78.6795⟩),
  ("BADL", ⟨43.8554, -101.9777⟩),
  ("EVER", ⟨25.2866, -80.8987⟩),
  ("ABLI", ⟨37.5429, -85.6739⟩),
  ("ADAM", ⟨42.2553, -71.0275⟩),
  ("AFBG", ⟨40.7150, -74.0042⟩),
  ("AGFO", ⟨42.4186, -103.7273⟩),
  ("ALFL", ⟨35.5669, -101.6719⟩),
  ("AMIS", ⟨29.5255, -101.0769⟩),
  ("ANIA", ⟨56.8987, -158.6114⟩),
  ("APCO", ⟨37.3760, -78.7959⟩),
  ("AZRU", ⟨36.8389, -107.9983⟩),
  ("BEPA", ⟨38.9072, -77.0369⟩),
  ("BIBE", ⟨29.1275, -103.2425⟩),
  ("BICA", ⟨45.0293, -108.1618⟩),
  ("BICR", ⟨33.5186, -86.8104⟩),
  ("BISC", ⟨25.4390, -80.4017⟩),
  ("BLCA", ⟨38.5753, -107.7018⟩),
  ("BLRV", ⟨42.1341, -71.1636⟩),
  ("BOWA", ⟨37.1214, -79.9081⟩),
  ("BOHA", ⟨42.3398, -70.9661⟩),
  ("BRVB", ⟨39.0409, -95.6890⟩),
  ("BUIS", ⟨17.7539, -64.6255⟩),
  ("CABR", ⟨32.6722, -117.2417⟩),
  ("CANE", ⟨37.7862, -84.5985⟩),
  ("CANA", ⟨28.8123, -80.8101⟩),
  ("CARI", ⟨31.0407, -93.0096⟩),
  ("CACH", ⟨36.1490, -109.3389⟩),
  ("CALO", ⟨34.6204, -76.5197⟩),
  ("CAVO", ⟨36.7828, -103.9705⟩),
  ("CIBS", ⟨40.2019, -77.1956⟩),
  ("CAVE", ⟨32.1478, -104.5567⟩),
  ("CAGR", ⟨32.4797, -111.5375⟩),
  ("CASA", ⟨29.8974, -81.3123⟩),
  ("CACL", ⟨40.7033, -74.0170⟩),
  ("CAMO", ⟨35.2917, -115.0881⟩),
  ("CEBR", ⟨37.6283, -112.8453⟩),
  ("CEBE", ⟨39.0052, -78.3086⟩),
  ("CAME", ⟨36.9212, -76.0051⟩),
  ("CAKR", ⟨67.4162, -163.1524⟩),
  ("CHCU", ⟨36.0544, -107.9914⟩),
  ("CHIS", ⟨34.0069, -119.7785⟩)]

/-- Modelled from the spec: the Park record of §3 (the TypeScript
interface lives in `frontend/src/types/forecast.ts`, which is not in the
source set).  Only fields the routes and the aggregation actually touch are
behavioural: `park_id` (lookup key) and `has_model` (map filter); the
upstream park carries no latitude/longitude of its own, since the listing
route overwrites both unconditionally. -/
structure UpstreamPark where
  park_id : String
  park_name : String
  park_state : String
  region : String
  park_type : String
  has_model : Bool
  data_available : Option Bool
  last_training : Option String
deriving DecidableEq, Inhabited

/-- A park as returned by `GET /api/parks`: the upstream record spread
together with the (possibly absent) looked-up coordinates. -/
structure EnrichedPark where
  base : UpstreamPark
  latitude : Option Rat
  longitude : Option Rat
deriving DecidableEq, Inhabited

/-- The per-park enrichment step of the parks route:
`{...park, latitude: coordinates?.lat, longitude: coordinates?.lng}`. -/
def enrichPark (park : UpstreamPark) : EnrichedPark :=
  let coordinates := List.lookup park.park_id PARK_COORDINATES
  { base := park
    latitude := coordinates.map (·.lat)
    longitude := coordinates.map (·.lng) }

/-- JavaScript truthiness of an optional number used by the (unused)
`parksWithCoords` filter: absent and `0` are falsy. -/
def numTruthy : Option Rat → Bool
  | none => false
  | some x => x != 0

/-- Outcome of the parks route's upstream fetch: an HTTP response whose
body may parse as a park list, or a classified thrown error. -/
inductive ParksFetch where
  | resp (status : Nat) (text : String) (json : Option (List UpstreamPark))
  | connError
  | timeoutError
  | otherError
deriving DecidableEq, Inhabited

/-- Result of `GET /api/parks`: an error JSON with its HTTP status, or the
success body `{parks, total, timestamp}` (HTTP 200). -/
inductive ParksResult where
  | err (status : Nat) (msg : String)
  | ok (parks : List EnrichedPark) (total : Nat) (timestamp : String)
deriving DecidableEq, Inhabited

def unexpectedParksMsg : String := "An unexpected error occurred while fetching parks."

namespace Parks

/-- The `GET /api/parks` handler, as a function of the upstream fetch
outcome and the current timestamp.  The `parksWithCoords` filter is
computed (as in the source) but does not feed the response. -/
def GET (fetch : ParksFetch) (now : String) : ParksResult :=
  match fetch with
  | .connError => .err 503 connectErrorMsg
  | .timeoutError => .err 504 predictTimeoutMsg
  | .otherError => .err 500 unexpectedParksMsg
  | .resp status text json =>
    if !(200 ≤ status && status < 300) then
      if 500 ≤ status then
        .err 503 mlUnavailableMsg
      else
        .err status ("ML service error: " ++ text)
    else
      match json with
      | none => .err 500 unexpectedParksMsg
      | some parks =>
        let parksWithCoordinates := parks.map enrichPark
        let _parksWithCoords := parksWithCoordinates.filter (fun park =>
          numTruthy park.latitude && numTruthy park.longitude)
        .ok parksWithCoordinates parksWithCoordinates.length now

end Parks

/-- The ML service's health payload (`HealthResponse`): every field may be
absent in the parsed JSON. -/
structure HealthBody where
  status : Option String
  models_loaded : Option Nat
  database_connected : Option Bool
deriving DecidableEq, Inhabited

/-- Outcome of the health probe's fetch: an HTTP response (whose body may
fail to parse) or any thrown error (connection failure, timeout, ...) —
the route does not distinguish among thrown errors. -/
inductive HealthFetch where
  | resp (status : Nat) (json : Option HealthBody)
  | failure
deriving DecidableEq, Inhabited

/-- The claim-relevant fields of the health route's JSON body together
with the HTTP status code it is sent with.  (The timestamp, version,
measured latency and environment label are environment inputs echoed
verbatim and are not modelled.) -/
structure HealthData where
  status : String
  ml_status : Option String
  models_loaded : Nat
  database_connected : Bool
  httpStatus : Nat
deriving DecidableEq, Inhabited

namespace Health

/-- The try/catch of the health route: the value of `mlServiceStatus`
(`none` models the JavaScript `undefined` read off a parsed body with no
`status` field), `mlModelsLoaded` and `dbConnected` after the probe.  A
2xx response whose body fails to parse throws inside the `try`, landing in
the same catch as a transport failure. -/
def probeUpstream (f : HealthFetch) : Option String × Nat × Bool :=
  match f with
  | .failure => (some "unavailable", 0, false)
  | .resp status json =>
    if 200 ≤ status && status < 300 then
      match json with
      | some mlHealth =>
        (mlHealth.status, mlHealth.models_loaded.getD 0,
         mlHealth.database_connected.getD false)
      | none => (some "unavailable", 0, false)
    else
      (some "error", 0, false)

/-- The `GET /api/health` handler. -/
def GET (f : HealthFetch) : HealthData :=
  let probed := probeUpstream f
  let mlServiceStatus := probed.1
  { status := if mlServiceStatus == some "healthy" then "healthy" else "degraded"
    ml_status := mlServiceStatus
    models_loaded := probed.2.1
    database_connected := probed.2.2
    httpStatus := if mlServiceStatus == some "healthy" then 200 else 503 }

end Health

/-- Gregorian leap-year test. -/
def isLeapYear (y : Nat) : Bool :=
  (y % 4 == 0 && y % 100 != 0) || y % 400 == 0

/-- Leap years among `1..y` of the proleptic Gregorian calendar. -/
def leapCount (y : Nat) : Nat :=
  y / 4 - y / 100 + y / 400

/-- Days from 0001-01-01 to the first day of year `y` (`y ≥ 1`). -/
def daysBeforeYear (y : Nat) : Nat :=
  365 * (y - 1) + leapCount (y - 1)

/-- Days of the months strictly before month `m` in a common year. -/
def daysBeforeMonth (m : Nat) : Nat :=
  match m with
  | 1 => 0 | 2 => 31 | 3 => 59 | 4 => 90 | 5 => 120 | 6 => 151
  | 7 => 181 | 8 => 212 | 9 => 243 | 10 => 273 | 11 => 304 | _ => 334

/-- Value of an ASCII digit character. -/
def digitVal (c : Char) : Option Nat :=
  if c.toNat < 48 || 57 < c.toNat then none else some (c.toNat - 48)

/-- Two-digit decimal number. -/
def parse2 (a b : Char) : Option Nat := do
  let x ← digitVal a
  let y ← digitVal b
  pure (10 * x + y)

/-- Four-digit decimal number. -/
def parse4 (a b c d : Char) : Option Nat := do
  let x ← parse2 a b
  let y ← parse2 c d
  pure (100 * x + y)

/-- The year/month/day of a `YYYY-MM-DD` string; `none` when the string is
not a date of that shape. -/
def isoParts (s : String) : Option (Nat × Nat × Nat) :=
  match s.data with
  | [y1, y2, y3, y4, h1, m1, m2, h2, d1, d2] =>
    if h1 == '-' && h2 == '-' then do
      let y ← parse4 y1 y2 y3 y4
      let m ← parse2 m1 m2
      let d ← parse2 d1 d2
      if 1 ≤ y && 1 ≤ m && m ≤ 12 && 1 ≤ d && d ≤ 31 then pure (y, m, d) else none
    else none
  | _ => none

/-- Day number of a `YYYY-MM-DD` string, counted from 0001-01-01 — the
value `new Date(s).getTime()` divides out to for a date-only ISO string
(parsed as UTC midnight, so differences are whole days).  `none` models an
invalid date (`NaN` epoch). -/
def isoToDays (s : String) : Option Nat := do
  let (y, m, d) ← isoParts s
  pure (daysBeforeYear y + daysBeforeMonth m +
    (if isLeapYear y && 3 ≤ m then 1 else 0) + (d - 1))

/-- The `daysFromBase` computation of `loadMapPredictions`:
`Math.ceil((selectedDateTime - baseDateTime) / msPerDay)` with the fixed
anchor `"2025-07-04"`.  Both dates parse to UTC midnights, so the quotient
is an exact integer and `Math.ceil` is the identity; `none` models the
`NaN` produced by an unparseable date. -/
def jsDaysFromBase (selectedMapDate : String) : Option Int := do
  let selected ← isoToDays selectedMapDate
  let base ← isoToDays "2025-07-04"
  pure ((selected : Int) - (base : Int))

/-- The per-park request `loadMapPredictions` builds: anchored at the base
date, `days_ahead = Math.max(1, daysFromBase + 1)`.  `days_ahead = none`
models the `NaN` that an unparseable selected date would propagate
(`Math.max(1, NaN) = NaN`). -/
def mapRequest (selectedMapDate : String) (park : UpstreamPark) : PredictBody :=
  { park_id := some park.park_id
    start_date := some "2025-07-04"
    days_ahead := (jsDaysFromBase selectedMapDate).map (fun d => max 1 (d + 1)) }

/-- The list of prediction requests one `loadMapPredictions` run issues:
one per park with `has_model`, in park-list order. -/
def mapPredictionRequests (parks : List UpstreamPark) (selectedMapDate : String) :
    List PredictBody :=
  (parks.filter (·.has_model)).map (mapRequest selectedMapDate)

/-- Outcome of one park's `fetch("/api/predict", ...)` in the aggregation:
either the browser-side fetch itself threw (`localFail`, swallowed by the
inner catch), or the predict route ran with the given ML-service fetch
outcome. -/
inductive ParkFetch where
  | upstream (f : FetchOutcome)
  | localFail
deriving DecidableEq, Inhabited

/-- The state `loadMapPredictions` commits: the new `mapPredictions`
record (as an association list in insertion order) and the top-level
error message, `none` unless the orchestration itself throws. -/
structure MapRun where
  mapPredictions : List (String × PredictOut)
  error : Option String
deriving DecidableEq, Inhabited

/-- The per-park promise body of `loadMapPredictions`: run the predict
call (its outcome given by `oracle`, keyed by park id); a thrown fetch or
a non-ok response yields `null`; a successful response has its
`predictions` filtered down to the selected date and is keyed by the
park's identifier. -/
def parkCall (selectedMapDate : String) (oracle : String → ParkFetch) (now : String)
    (park : UpstreamPark) : Option (String × PredictOut) :=
  match oracle park.park_id with
  | .localFail => none
  | .upstream f =>
    match (Predict.POST (mapRequest selectedMapDate park) f now).1 with
    | .err _ _ => none
    | .ok data =>
      some (park.park_id,
        { data with predictions :=
            data.predictions.filter (fun pred => pred.ds == selectedMapDate) })

/-- The dashboard's `loadMapPredictions` (in the page component): filter
to parks with models, issue one predict call per park, drop failed calls
(`null`), and assemble the keyed result.  Orchestration is pure here, so
the catch branch that sets the aggregate error is unreachable and `error`
is always `none`. -/
def loadMapPredictions (parks : List UpstreamPark) (selectedMapDate : String)
    (oracle : String → ParkFetch) (now : String) : MapRun :=
  let parksWithModels := parks.filter (·.has_model)
  let results : List (Option (String × PredictOut)) :=
    parksWithModels.map (parkCall selectedMapDate oracle now)
  { mapPredictions := results.filterMap id
    error := none }

/-- The health condition of the spec, in the spec's words: the upstream
probe returned a 2xx response whose body `status` field is exactly
`"healthy"`.  Named separately so the health claim can compare the
handler against it. -/
def upstreamReportsHealthy : HealthFetch → Prop
  | .resp status (some mlHealth) => 200 ≤ status ∧ status < 300 ∧ mlHealth.status = some "healthy"
  | _ => False

/-- A failed per-park call in the aggregation: either the browser-side
fetch threw, or the predict route answered with an error status (so
`response.ok` is false). -/
def parkCallFailed (selectedMapDate : String) (park : UpstreamPark)
    (pf : ParkFetch) (now : String) : Prop :=
  match pf with
  | .localFail => True
  | .upstream f =>
    ∃ status msg, (Predict.POST (mapRequest selectedMapDate park) f now).1 = .err status msg

/-! ## Helper lemmas -/

theorem strFalsy_some_eq_false {s : String} (h : s ≠ "") : strFalsy (some s) = false := by
  simp [strFalsy, h]

theorem jsDaysFromBase_july5 : jsDaysFromBase "2025-07-05" = some 1 := by decide

theorem lookup_YELL :
    List.lookup "YELL" PARK_COORDINATES = some ⟨44.428, -110.588⟩ := by rfl

/-- Inversion of a successful predict-route run: success happens exactly
when the fetch produced a parseable 2xx response whose payload carries a
non-null prediction list, and the output is the translated wrapper. -/
theorem Predict.POST_ok_shape (body : PredictBody) (f : FetchOutcome) (now : String)
    (out : PredictOut) (h : (Predict.POST body f now).1 = .ok out) :
    ∃ status text ml preds, f = .resp status text (some ml)
      ∧ ml.predictions = some preds
      ∧ out = { predictions := preds.map (fun pred =>
                  { ds := pred.date
                    yhat := pred.predicted_visitors
                    yhat_lower := pred.lower_bound
                    yhat_upper := pred.upper_bound })
                park_id := body.park_id
                confidence_level := 80
                model_performance := { mape := 0, mae := 0, rmse := 0 }
                timestamp := now
                request_params := body } := by
  unfold Predict.POST at h
  split at h
  · simp at h
  · split at h
    · simp at h
    · match f, h with
      | .resp status text json, h =>
        simp only at h
        split at h
        · split at h <;> simp at h
        · split at h
          · simp at h
          · rename_i mlResponse
            split at h
            · simp at h
            · rename_i hcond
              simp only [Bool.not_eq_true, Bool.or_eq_true, not_or, Bool.not_eq_false,
                beq_iff_eq] at hcond
              obtain ⟨preds, hp⟩ := Option.ne_none_iff_exists'.mp hcond.2
              refine ⟨status, text, mlResponse, preds, rfl, hp, ?_⟩
              simp only [PredictResult.ok.injEq] at h
              rw [← h]
              simp [hp]

/-! ## C1 -/

/-- C1 (counterexample): a request body carrying all three fields, with
`days_ahead = 0` (outside `[1,365]`), is rejected with the
missing-required-field message, not the days-ahead-range message — the
truthiness-based presence check fires on the falsy `0` first. -/
theorem claim_C1_counterexample :
    (Predict.POST ⟨some "YELL", some "2025-07-04", some 0⟩ .connError "t").1
        = .err 400 missingFieldsMsg
    ∧ (Predict.POST ⟨some "YELL", some "2025-07-04", some 0⟩ .connError "t").1
        ≠ .err 400 daysAheadRangeMsg := by
  constructor
  · decide
  · decide

/-- C1 (amended): for a body with all three fields present (identifier and
date non-empty) and `days_ahead` outside `[1,365]`, the endpoint rejects
with HTTP 400 and no upstream call; the error is the days-ahead-range
message whenever `days_ahead ≠ 0`, but for `days_ahead = 0` the
truthiness-based presence check fails first and the missing-required-field
message is returned instead. -/
theorem claim_C1_range_error_unless_zero (pid sd : String) (d : Int)
    (f : FetchOutcome) (now : String)
    (hpid : pid ≠ "") (hsd : sd ≠ "") (hd : d < 1 ∨ 365 < d) :
    Predict.POST ⟨some pid, some sd, some d⟩ f now
      = (.err 400 (if d = 0 then missingFieldsMsg else daysAheadRangeMsg), 0) := by
  by_cases h0 : d = 0
  · subst h0
    simp [Predict.POST, strFalsy, intFalsy, hpid, hsd]
  · have hcond : (jsLt (some d) 1 || jsGt (some d) 365) = true := by
      simp only [jsLt, jsGt, Bool.or_eq_true, decide_eq_true_eq]
      omega
    simp [Predict.POST, strFalsy, intFalsy, hpid, hsd, h0, hcond]

/-- C1 (witness): the amended theorem at `days_ahead = 366`. -/
theorem claim_C1_range_error_unless_zero_witness :
    ("YELL" ≠ "" ∧ "2025-07-04" ≠ "" ∧ ((366 : Int) < 1 ∨ 365 < (366 : Int)))
    ∧ Predict.POST ⟨some "YELL", some "2025-07-04", some 366⟩ .connError "t"
        = (.err 400 (if (366 : Int) = 0 then missingFieldsMsg else daysAheadRangeMsg), 0) :=
  ⟨⟨by decide, by decide, by norm_num⟩,
   claim_C1_range_error_unless_zero "YELL" "2025-07-04" 366 .connError "t"
     (by decide) (by decide) (by norm_num)⟩

/-! ## C6 -/

/-- C6: a predict request with a missing field or with `days_ahead` outside
`[1,365]` is answered by one of the two HTTP-400 validation errors, and
the upstream call count is zero — validation completes before any network
I/O. -/
theorem claim_C6_validation_rejects_before_upstream
    (body : PredictBody) (f : FetchOutcome) (now : String)
    (h : body.park_id = none ∨ body.start_date = none ∨ body.days_ahead = none
        ∨ ∃ d, body.days_ahead = some d ∧ (d < 1 ∨ 365 < d)) :
    (Predict.POST body f now).2 = 0
    ∧ ((Predict.POST body f now).1 = .err 400 missingFieldsMsg
       ∨ (Predict.POST body f now).1 = .err 400 daysAheadRangeMsg) := by
  by_cases hmiss :
      (strFalsy body.park_id || strFalsy body.start_date || intFalsy body.days_ahead) = true
  · rw [Predict.POST.eq_def, if_pos hmiss]
    exact ⟨rfl, Or.inl rfl⟩
  · have hrange : (jsLt body.days_ahead 1 || jsGt body.days_ahead 365) = true := by
      rcases h with h | h | h | ⟨d, hd, hr⟩
      · exact absurd (by simp [h, strFalsy]) hmiss
      · exact absurd (by simp [h, strFalsy]) hmiss
      · exact absurd (by simp [h, intFalsy]) hmiss
      · simp only [hd, jsLt, jsGt, Bool.or_eq_true, decide_eq_true_eq]
        omega
    rw [Predict.POST.eq_def, if_neg hmiss, if_pos hrange]
    exact ⟨rfl, Or.inr rfl⟩

/-- C6 (witness): the theorem at a body missing `park_id`. -/
theorem claim_C6_validation_rejects_before_upstream_witness :
    ((⟨none, some "2025-07-04", some 5⟩ : PredictBody).park_id = none
      ∨ (⟨none, some "2025-07-04", some 5⟩ : PredictBody).start_date = none
      ∨ (⟨none, some "2025-07-04", some 5⟩ : PredictBody).days_ahead = none
      ∨ ∃ d, (⟨none, some "2025-07-04", some 5⟩ : PredictBody).days_ahead = some d
          ∧ (d < 1 ∨ 365 < d))
    ∧ ((Predict.POST ⟨none, some "2025-07-04", some 5⟩ .connError "t").2 = 0
       ∧ ((Predict.POST ⟨none, some "2025-07-04", some 5⟩ .connError "t").1
            = .err 400 missingFieldsMsg
          ∨ (Predict.POST ⟨none, some "2025-07-04", some 5⟩ .connError "t").1
            = .err 400 daysAheadRangeMsg)) :=
  ⟨Or.inl rfl,
   claim_C6_validation_rejects_before_upstream ⟨none, some "2025-07-04", some 5⟩
     .connError "t" (Or.inl rfl)⟩

/-! ## C5 -/

/-- C5: every successful predict response is the 1:1 translation of the
upstream prediction records — field renaming only (`date ↦ ds`,
`predicted_visitors ↦ yhat`, `lower_bound ↦ yhat_lower`,
`upper_bound ↦ yhat_upper`), no value mutation, order and length
preserved. -/
theorem claim_C5_translation_is_field_renaming
    (body : PredictBody) (f : FetchOutcome) (now : String) (out : PredictOut)
    (h : (Predict.POST body f now).1 = .ok out) :
    ∃ status text ml preds, f = .resp status text (some ml)
      ∧ ml.predictions = some preds
      ∧ out.predictions = preds.map (fun pred =>
          { ds := pred.date
            yhat := pred.predicted_visitors
            yhat_lower := pred.lower_bound
            yhat_upper := pred.upper_bound })
      ∧ out.predictions.length = preds.length := by
  obtain ⟨status, text, ml, preds, hf, hp, hout⟩ := Predict.POST_ok_shape body f now out h
  subst hout
  exact ⟨status, text, ml, preds, hf, hp, rfl, by simp⟩

/-- C5 (witness): the theorem at a concrete successful run. -/
theorem claim_C5_translation_is_field_renaming_witness :
    ((Predict.POST ⟨some "YELL", some "2025-07-10", some 1⟩
        (.resp 200 ""
          (some ⟨true, "YELL", some [⟨"2025-07-10", 1200, 900, 1500, "80%"⟩], none⟩))
        "t").1
      = .ok { predictions := [⟨"2025-07-10", 1200, 900, 1500⟩]
              park_id := some "YELL"
              confidence_level := 80
              model_performance := ⟨0, 0, 0⟩
              timestamp := "t"
              request_params := ⟨some "YELL", some "2025-07-10", some 1⟩ })
    ∧ ∃ status text ml preds,
        (FetchOutcome.resp 200 ""
            (some ⟨true, "YELL", some [⟨"2025-07-10", 1200, 900, 1500, "80%"⟩], none⟩))
          = .resp status text (some ml)
        ∧ ml.predictions = some preds
        ∧ ({ predictions := [⟨"2025-07-10", 1200, 900, 1500⟩]
             park_id := some "YELL"
             confidence_level := 80
             model_performance := ⟨0, 0, 0⟩
             timestamp := "t"
             request_params := ⟨some "YELL", some "2025-07-10", some 1⟩ } : PredictOut).predictions
            = preds.map (fun pred =>
                { ds := pred.date
                  yhat := pred.predicted_visitors
                  yhat_lower := pred.lower_bound
                  yhat_upper := pred.upper_bound })
        ∧ ({ predictions := [⟨"2025-07-10", 1200, 900, 1500⟩]
             park_id := some "YELL"
             confidence_level := 80
             model_performance := ⟨0, 0, 0⟩
             timestamp := "t"
             request_params := ⟨some "YELL", some "2025-07-10", some 1⟩ } : PredictOut).predictions.length
            = preds.length :=
  ⟨by decide,
   claim_C5_translation_is_field_renaming ⟨some "YELL", some "2025-07-10", some 1⟩
     (.resp 200 ""
       (some ⟨true, "YELL", some [⟨"2025-07-10", 1200, 900, 1500, "80%"⟩], none⟩))
     "t"
     { predictions := [⟨"2025-07-10", 1200, 900, 1500⟩]
       park_id := some "YELL"
       confidence_level := 80
       model_performance := ⟨0, 0, 0⟩
       timestamp := "t"
       request_params := ⟨some "YELL", some "2025-07-10", some 1⟩ }
     (by decide)⟩

/-! ## C9 -/

/-- C9: every successful predict response fixes `confidence_level` to 80
and `model_performance` to zero placeholders, and echoes the generation
timestamp and the original request body as `request_params`. -/
theorem claim_C9_fixed_confidence_and_echo
    (body : PredictBody) (f : FetchOutcome) (now : String) (out : PredictOut)
    (h : (Predict.POST body f now).1 = .ok out) :
    out.confidence_level = 80
    ∧ out.model_performance = { mape := 0, mae := 0, rmse := 0 }
    ∧ out.timestamp = now
    ∧ out.request_params = body := by
  obtain ⟨status, text, ml, preds, hf, hp, hout⟩ := Predict.POST_ok_shape body f now out h
  subst hout
  exact ⟨rfl, rfl, rfl, rfl⟩

/-- C9 (witness): the theorem at a concrete successful run. -/
theorem claim_C9_fixed_confidence_and_echo_witness :
    ((Predict.POST ⟨some "YELL", some "2025-07-10", some 1⟩
        (.resp 200 ""
          (some ⟨true, "YELL", some [⟨"2025-07-10", 1200, 900, 1500, "80%"⟩], none⟩))
        "t").1
      = .ok { predictions := [⟨"2025-07-10", 1200, 900, 1500⟩]
              park_id := some "YELL"
              confidence_level := 80
              model_performance := ⟨0, 0, 0⟩
              timestamp := "t"
              request_params := ⟨some "YELL", some "2025-07-10", some 1⟩ })
    ∧ (({ predictions := [⟨"2025-07-10", 1200, 900, 1500⟩]
          park_id := some "YELL"
          confidence_level := 80
          model_performance := ⟨0, 0, 0⟩
          timestamp := "t"
          request_params := ⟨some "YELL", some "2025-07-10", some 1⟩ } : PredictOut).confidence_level = 80
        ∧ ({ predictions := [⟨"2025-07-10", 1200, 900, 1500⟩]
             park_id := some "YELL"
             confidence_level := 80
             model_performance := ⟨0, 0, 0⟩
             timestamp := "t"
             request_params := ⟨some "YELL", some "2025-07-10", some 1⟩ } : PredictOut).model_performance
            = { mape := 0, mae := 0, rmse := 0 }
        ∧ ({ predictions := [⟨"2025-07-10", 1200, 900, 1500⟩]
             park_id := some "YELL"
             confidence_level := 80
             model_performance := ⟨0, 0, 0⟩
             timestamp := "t"
             request_params := ⟨some "YELL", some "2025-07-10", some 1⟩ } : PredictOut).timestamp = "t"
        ∧ ({ predictions := [⟨"2025-07-10", 1200, 900, 1500⟩]
             park_id := some "YELL"
             confidence_level := 80
             model_performance := ⟨0, 0, 0⟩
             timestamp := "t"
             request_params := ⟨some "YELL", some "2025-07-10", some 1⟩ } : PredictOut).request_params
            = ⟨some "YELL", some "2025-07-10", some 1⟩) :=
  ⟨by decide,
   claim_C9_fixed_confidence_and_echo ⟨some "YELL", some "2025-07-10", some 1⟩
     (.resp 200 ""
       (some ⟨true, "YELL", some [⟨"2025-07-10", 1200, 900, 1500, "80%"⟩], none⟩))
     "t"
     { predictions := [⟨"2025-07-10", 1200, 900, 1500⟩]
       park_id := some "YELL"
       confidence_level := 80
       model_performance := ⟨0, 0, 0⟩
       timestamp := "t"
       request_params := ⟨some "YELL", some "2025-07-10", some 1⟩ }
     (by decide)⟩

/-! ## C4 -/

/-- C4: for a non-2xx upstream response to a prediction call (on a body
that passes validation) or to a parks call: a status ≥ 500 maps to HTTP
503 with the fixed generic message (a constant, independent of the
upstream response text), while a status < 500 is forwarded as-is together
with the upstream's error text in the message. -/
theorem claim_C4_upstream_error_classification
    (status : Nat) (text : String) (json : Option MLServiceResponse)
    (pjson : Option (List UpstreamPark))
    (pid sd : String) (d : Int) (now : String)
    (hpid : pid ≠ "") (hsd : sd ≠ "") (hd : 1 ≤ d) (hd' : d ≤ 365)
    (hnok : ¬(200 ≤ status ∧ status < 300)) :
    (500 ≤ status →
      (Predict.POST ⟨some pid, some sd, some d⟩ (.resp status text json) now).1
          = .err 503 mlUnavailableMsg
      ∧ Parks.GET (.resp status text pjson) now = .err 503 mlUnavailableMsg)
    ∧ (status < 500 →
      (Predict.POST ⟨some pid, some sd, some d⟩ (.resp status text json) now).1
          = .err status ("ML service error: " ++ text)
      ∧ Parks.GET (.resp status text pjson) now
          = .err status ("ML service error: " ++ text)) := by
  have hval : (strFalsy (some pid) || strFalsy (some sd) || intFalsy (some d)) = false := by
    simp only [strFalsy, intFalsy, Bool.or_eq_false_iff, beq_eq_false_iff_ne, ne_eq]
    refine ⟨⟨hpid, hsd⟩, ?_⟩
    omega
  have hrange : (jsLt (some d) 1 || jsGt (some d) 365) = false := by
    simp only [jsLt, jsGt, Bool.or_eq_false_iff, decide_eq_false_iff_not]
    omega
  have hok : (!(decide (200 ≤ status) && decide (status < 300))) = true := by
    simp only [Bool.not_eq_true', Bool.and_eq_false_iff, decide_eq_false_iff_not,
      Bool.not_eq_true, decide_eq_true_eq]
    by_cases h2 : 200 ≤ status
    · exact Or.inr (fun h3 => hnok ⟨h2, h3⟩)
    · exact Or.inl h2
  constructor
  · intro h5
    constructor
    · rw [Predict.POST.eq_def, if_neg (by simp [hval]), if_neg (by simp [hrange])]
      simp only
      rw [if_pos hok, if_pos h5]
    · rw [Parks.GET.eq_def]
      simp only
      rw [if_pos hok, if_pos h5]
  · intro h5
    constructor
    · rw [Predict.POST.eq_def, if_neg (by simp [hval]), if_neg (by simp [hrange])]
      simp only
      rw [if_pos hok, if_neg (by omega)]
    · rw [Parks.GET.eq_def]
      simp only
      rw [if_pos hok, if_neg (by omega)]

/-- C4 (witness): the theorem at a 404 upstream response. -/
theorem claim_C4_upstream_error_classification_witness :
    ("YELL" ≠ "" ∧ "2025-07-04" ≠ "" ∧ (1 : Int) ≤ 5 ∧ (5 : Int) ≤ 365
      ∧ ¬(200 ≤ 404 ∧ 404 < 300))
    ∧ ((404 < 500 →
        (Predict.POST ⟨some "YELL", some "2025-07-04", some 5⟩
            (.resp 404 "no model for park" none) "t").1
            = .err 404 ("ML service error: " ++ "no model for park")
        ∧ Parks.GET (.resp 404 "no model for park" none) "t"
            = .err 404 ("ML service error: " ++ "no model for park"))) :=
  ⟨⟨by decide, by decide, by norm_num, by norm_num, by omega⟩,
   (claim_C4_upstream_error_classification 404 "no model for park" none none
     "YELL" "2025-07-04" 5 "t" (by decide) (by decide) (by norm_num) (by norm_num)
     (by omega)).2⟩

/-! ## C3 -/

/-- C3: the health endpoint reports HTTP 200 with aggregate status
`"healthy"` exactly when the upstream probe returned a 2xx response whose
body `status` field is `"healthy"`; in every other case (other status
string, missing status field, non-2xx response, unparseable body, or
transport failure) it reports HTTP 503 with aggregate status
`"degraded"`. -/
theorem claim_C3_health_aggregation (f : HealthFetch) :
    (((Health.GET f).httpStatus = 200 ∧ (Health.GET f).status = "healthy")
      ↔ upstreamReportsHealthy f)
    ∧ (((Health.GET f).httpStatus = 503 ∧ (Health.GET f).status = "degraded")
      ↔ ¬ upstreamReportsHealthy f) := by
  match f with
  | .failure =>
    simp [Health.GET, Health.probeUpstream, upstreamReportsHealthy]
  | .resp status none =>
    by_cases h2 : 200 ≤ status ∧ status < 300
    · simp [Health.GET, Health.probeUpstream, upstreamReportsHealthy, h2.1, h2.2]
    · have : (decide (200 ≤ status) && decide (status < 300)) = false := by
        simp only [Bool.and_eq_false_iff, decide_eq_false_iff_not]
        omega
      simp [Health.GET, Health.probeUpstream, upstreamReportsHealthy, this]
  | .resp status (some mlHealth) =>
    by_cases h2 : 200 ≤ status ∧ status < 300
    · by_cases hst : mlHealth.status = some "healthy"
      · simp [Health.GET, Health.probeUpstream, upstreamReportsHealthy, h2.1, h2.2, hst]
      · simp [Health.GET, Health.probeUpstream, upstreamReportsHealthy, h2.1, h2.2, hst]
    · have hcond : (decide (200 ≤ status) && decide (status < 300)) = false := by
        simp only [Bool.and_eq_false_iff, decide_eq_false_iff_not]
        omega
      have : ¬(200 ≤ status ∧ status < 300 ∧ mlHealth.status = some "healthy") := by
        intro h
        exact h2 ⟨h.1, h.2.1⟩
      simp [Health.GET, Health.probeUpstream, upstreamReportsHealthy, hcond, this]

/-- C3 (witness): the theorem applied to a transport failure yields the
degraded 503 response. -/
theorem claim_C3_health_aggregation_witness :
    (Health.GET .failure).httpStatus = 503 ∧ (Health.GET .failure).status = "degraded" :=
  (claim_C3_health_aggregation .failure).2.mpr (by simp [upstreamReportsHealthy])

/-! ## C8 -/

/-- C8: in every successful parks listing, a park with identifier `"YELL"`
is enriched with latitude 44.428 and longitude -110.588; a park whose
identifier is absent from the static table gets no latitude/longitude; and
neither case makes the listing call fail — the response is the `ok` body
of the enriched list for any upstream park list. -/
theorem claim_C8_coordinate_enrichment (status : Nat) (text now : String)
    (l : List UpstreamPark) (hok : 200 ≤ status ∧ status < 300) :
    Parks.GET (.resp status text (some l)) now
        = .ok (l.map enrichPark) (l.map enrichPark).length now
    ∧ (∀ p ∈ l, p.park_id = "YELL" →
        (enrichPark p).latitude = some 44.428 ∧ (enrichPark p).longitude = some (-110.588))
    ∧ (∀ p ∈ l, List.lookup p.park_id PARK_COORDINATES = none →
        (enrichPark p).latitude = none ∧ (enrichPark p).longitude = none) := by
  refine ⟨?_, ?_, ?_⟩
  · simp [Parks.GET, hok.1, hok.2]
  · intro p _ hid
    rw [enrichPark]
    simp [hid, lookup_YELL]
  · intro p _ hnone
    rw [enrichPark]
    simp [hnone]

/-- C8 (witness): the theorem at a two-park list, one with the `"YELL"`
identifier and one with an identifier absent from the table. -/
theorem claim_C8_coordinate_enrichment_witness :
    (200 ≤ 200 ∧ 200 < 300)
    ∧ ((enrichPark ⟨"YELL", "Yellowstone", "WY", "IM", "National Park", true, none, none⟩).latitude
          = some 44.428
      ∧ (enrichPark ⟨"YELL", "Yellowstone", "WY", "IM", "National Park", true, none, none⟩).longitude
          = some (-110.588))
    ∧ ((enrichPark ⟨"ZZZZ", "Nowhere", "XX", "XX", "Other", false, none, none⟩).latitude = none
      ∧ (enrichPark ⟨"ZZZZ", "Nowhere", "XX", "XX", "Other", false, none, none⟩).longitude = none) :=
  ⟨by norm_num,
   (claim_C8_coordinate_enrichment 200 "" "t"
      [⟨"YELL", "Yellowstone", "WY", "IM", "National Park", true, none, none⟩,
       ⟨"ZZZZ", "Nowhere", "XX", "XX", "Other", false, none, none⟩] (by norm_num)).2.1
     ⟨"YELL", "Yellowstone", "WY", "IM", "National Park", true, none, none⟩ (by simp) rfl,
   (claim_C8_coordinate_enrichment 200 "" "t"
      [⟨"YELL", "Yellowstone", "WY", "IM", "National Park", true, none, none⟩,
       ⟨"ZZZZ", "Nowhere", "XX", "XX", "Other", false, none, none⟩] (by norm_num)).2.2
     ⟨"ZZZZ", "Nowhere", "XX", "XX", "Other", false, none, none⟩ (by simp) (by rfl)⟩

/-! ## C10 -/

/-- C10: a successful parks response returns the full enriched upstream
list — coordinate-less parks included — with `total` equal to that full
list's length; the internally computed coordinates-only filter never
restricts the response. -/
theorem claim_C10_listing_never_restricted (status : Nat) (text now : String)
    (l : List UpstreamPark) (hok : 200 ≤ status ∧ status < 300) :
    Parks.GET (.resp status text (some l)) now = .ok (l.map enrichPark) l.length now
    ∧ ∀ p ∈ l, enrichPark p ∈ l.map enrichPark := by
  constructor
  · simp [Parks.GET, hok.1, hok.2]
  · intro p hp
    exact List.mem_map_of_mem enrichPark hp

/-- C10 (witness): the theorem at a list holding one park with coordinates
and one without; both appear and `total = 2`. -/
theorem claim_C10_listing_never_restricted_witness :
    (200 ≤ 204 ∧ 204 < 300)
    ∧ Parks.GET (.resp 204 ""
        (some [⟨"YELL", "Yellowstone", "WY", "IM", "National Park", true, none, none⟩,
               ⟨"ZZZZ", "Nowhere", "XX", "XX", "Other", false, none, none⟩])) "t"
        = .ok ([⟨"YELL", "Yellowstone", "WY", "IM", "National Park", true, none, none⟩,
                ⟨"ZZZZ", "Nowhere", "XX", "XX", "Other", false, none, none⟩].map enrichPark)
            2 "t" :=
  ⟨by norm_num,
   (claim_C10_listing_never_restricted 204 "" "t"
      [⟨"YELL", "Yellowstone", "WY", "IM", "National Park", true, none, none⟩,
       ⟨"ZZZZ", "Nowhere", "XX", "XX", "Other", false, none, none⟩] (by norm_num)).1⟩

/-! ## C2 -/

/-- C2: with selected date `"2025-07-05"` (one day after the anchor), the
aggregation issues exactly one request per park with a model, each
anchored at `"2025-07-04"` with `days_ahead = 2` (≥ 2), and — provided the
upstream payloads carry at most one record for that date — every park in
the resulting set holds either exactly one `PredictionPoint` with
`ds = "2025-07-05"` or an empty prediction list. -/
theorem claim_C2_map_aggregation_july5
    (parks : List UpstreamPark) (oracle : String → ParkFetch) (now : String)
    (hone : ∀ pid status text ml preds,
        oracle pid = .upstream (.resp status text (some ml)) →
        ml.predictions = some preds →
        (preds.filter (fun pred => pred.date == "2025-07-05")).length ≤ 1) :
    mapPredictionRequests parks "2025-07-05"
      = (parks.filter (·.has_model)).map (fun park =>
          { park_id := some park.park_id
            start_date := some "2025-07-04"
            days_ahead := some 2 })
    ∧ ∀ e ∈ (loadMapPredictions parks "2025-07-05" oracle now).mapPredictions,
        e.2.predictions = []
        ∨ ∃ pred, e.2.predictions = [pred] ∧ pred.ds = "2025-07-05" := by
  constructor
  · simp [mapPredictionRequests, mapRequest, jsDaysFromBase_july5]
  · intro e he
    simp only [loadMapPredictions, parkCall, List.mem_filterMap, id_eq, List.mem_map] at he
    obtain ⟨oe, ⟨park, hpark, rfl⟩, hoe⟩ := he
    cases ho : oracle park.park_id with
    | localFail => rw [ho] at hoe; simp at hoe
    | upstream f =>
      rw [ho] at hoe
      simp only at hoe
      cases hpost : (Predict.POST (mapRequest "2025-07-05" park) f now).1 with
      | err s m => rw [hpost] at hoe; simp at hoe
      | ok data =>
        rw [hpost] at hoe
        simp only [Option.some.injEq] at hoe
        obtain ⟨status, text, ml, preds, hf, hp, hdata⟩ :=
          Predict.POST_ok_shape _ f now data hpost
        subst hf
        subst hdata
        rw [← hoe]
        simp only
        have hcongr :
            preds.filter ((fun q : PredictionPoint => q.ds == "2025-07-05") ∘
                (fun pred => ({ ds := pred.date
                                yhat := pred.predicted_visitors
                                yhat_lower := pred.lower_bound
                                yhat_upper := pred.upper_bound } : PredictionPoint)))
              = preds.filter (fun pred => pred.date == "2025-07-05") := by
          apply List.filter_congr
          intro a _
          rfl
        have hle := hone park.park_id status text ml preds ho hp
        rw [List.filter_map, hcongr]
        rcases hfl : preds.filter (fun pred => pred.date == "2025-07-05") with _ | ⟨a, _ | ⟨b, t⟩⟩
        · left
          rw [hfl]
          rfl
        · right
          refine ⟨⟨a.date, a.predicted_visitors, a.lower_bound, a.upper_bound⟩, by rw [hfl]; rfl, ?_⟩
          have ha : a ∈ preds.filter (fun pred => pred.date == "2025-07-05") := by
            rw [hfl]; exact List.mem_cons_self a []
          have := (List.mem_filter.mp ha).2
          simpa using this
        · rw [hfl] at hle
          simp at hle

/-- C2 (witness): the theorem at a one-park list whose upstream payload
carries one record per date. -/
theorem claim_C2_map_aggregation_july5_witness :
    mapPredictionRequests
        [⟨"GRCA", "Grand Canyon", "AZ", "IM", "National Park", true, none, none⟩]
        "2025-07-05"
      = (([⟨"GRCA", "Grand Canyon", "AZ", "IM", "National Park", true, none,
            none⟩] : List UpstreamPark).filter (·.has_model)).map (fun park =>
          { park_id := some park.park_id
            start_date := some "2025-07-04"
            days_ahead := some 2 })
    ∧ ((("GRCA",
        { predictions := [⟨"2025-07-05", 1200, 900, 1500⟩]
          park_id := some "GRCA"
          confidence_level := 80
          model_performance := ⟨0, 0, 0⟩
          timestamp := "t"
          request_params := ⟨some "GRCA", some "2025-07-04", some 2⟩ }) :
            String × PredictOut).2.predictions = []
      ∨ ∃ pred,
          (("GRCA",
            { predictions := [⟨"2025-07-05", 1200, 900, 1500⟩]
              park_id := some "GRCA"
              confidence_level := 80
              model_performance := ⟨0, 0, 0⟩
              timestamp := "t"
              request_params := ⟨some "GRCA", some "2025-07-04", some 2⟩ }) :
                String × PredictOut).2.predictions = [pred]
          ∧ pred.ds = "2025-07-05") := by
  have h := claim_C2_map_aggregation_july5
      [⟨"GRCA", "Grand Canyon", "AZ", "IM", "National Park", true, none, none⟩]
      (fun _ => .upstream (.resp 200 "" (some ⟨true, "GRCA",
        some [⟨"2025-07-04", 10, 5, 15, "80%"⟩, ⟨"2025-07-05", 1200, 900, 1500, "80%"⟩],
        none⟩)))
      "t" ?hone
  case hone =>
    intro pid status text ml preds hu hp
    simp only [ParkFetch.upstream.injEq, FetchOutcome.resp.injEq, Option.some.injEq] at hu
    obtain ⟨-, -, rfl⟩ := hu
    injection hp with hp'
    subst hp'
    decide
  exact ⟨h.1, h.2 _ (by decide)⟩

/-! ## C7 -/

/-- Every entry a per-park call produces is keyed by that park's
identifier. -/
theorem parkCall_key (selectedMapDate now : String) (oracle : String → ParkFetch)
    (park : UpstreamPark) (e : String × PredictOut)
    (h : parkCall selectedMapDate oracle now park = some e) : e.1 = park.park_id := by
  unfold parkCall at h
  split at h
  · cases h
  · split at h
    · cases h
    · cases h
      rfl

/-- A failed per-park call contributes nothing (`null`) to the
aggregation. -/
theorem parkCall_failed_none (selectedMapDate now : String) (oracle : String → ParkFetch)
    (park : UpstreamPark)
    (hf : parkCallFailed selectedMapDate park (oracle park.park_id) now) :
    parkCall selectedMapDate oracle now park = none := by
  unfold parkCall
  split
  · rfl
  · rename_i f ho
    rw [ho] at hf
    simp only [parkCallFailed] at hf
    obtain ⟨status, msg, hpost⟩ := hf
    split
    · rfl
    · rename_i data heq
      rw [hpost] at heq
      cases heq

/-- `filterMap id` after `map` is a direct `filterMap`: the shape the
assembled entry list takes. -/
theorem filterMap_id_map (g : UpstreamPark → Option (String × PredictOut))
    (l : List UpstreamPark) : (l.map g).filterMap id = l.filterMap g := by
  rw [List.filterMap_map]
  rfl

/-- Dropping the entries keyed `x`, the assembled result is insensitive to
what the calls of parks with identifier `x` returned: two call functions
that agree on every park with another identifier assemble the same
remaining entries. -/
theorem aggEntries_filter_ne_congr (x : String)
    (g g' : UpstreamPark → Option (String × PredictOut)) :
    ∀ l : List UpstreamPark,
      (∀ park ∈ l, ∀ e, g park = some e → e.1 = park.park_id) →
      (∀ park ∈ l, ∀ e, g' park = some e → e.1 = park.park_id) →
      (∀ park ∈ l, park.park_id ≠ x → g park = g' park) →
      (l.filterMap g).filter (fun e => e.1 != x)
        = (l.filterMap g').filter (fun e => e.1 != x) := by
  intro l
  induction l with
  | nil => intro _ _ _; rfl
  | cons park rest ih =>
    intro hk hk' hag
    have ihr := ih (fun p hp => hk p (List.mem_cons_of_mem _ hp))
                   (fun p hp => hk' p (List.mem_cons_of_mem _ hp))
                   (fun p hp => hag p (List.mem_cons_of_mem _ hp))
    by_cases hpid : park.park_id = x
    · cases hg : g park with
      | none =>
        rw [List.filterMap_cons_none hg]
        cases hg2 : g' park with
        | none =>
          rw [List.filterMap_cons_none hg2]
          exact ihr
        | some e' =>
          have he' : e'.1 = x := by rw [hk' park (List.mem_cons_self _ _) e' hg2, hpid]
          rw [List.filterMap_cons_some hg2, List.filter_cons]
          simp only [he', bne_self_eq_false, if_false]
          exact ihr
      | some e =>
        have he : e.1 = x := by rw [hk park (List.mem_cons_self _ _) e hg, hpid]
        rw [List.filterMap_cons_some hg, List.filter_cons]
        simp only [he, bne_self_eq_false, if_false]
        cases hg2 : g' park with
        | none =>
          rw [List.filterMap_cons_none hg2]
          exact ihr
        | some e' =>
          have he' : e'.1 = x := by rw [hk' park (List.mem_cons_self _ _) e' hg2, hpid]
          rw [List.filterMap_cons_some hg2, List.filter_cons]
          simp only [he', bne_self_eq_false, if_false]
          exact ihr
    · have hgg : g park = g' park := hag park (List.mem_cons_self _ _) hpid
      cases hg : g park with
      | none =>
        have hg2 : g' park = none := by rw [← hgg]; exact hg
        rw [List.filterMap_cons_none hg, List.filterMap_cons_none hg2]
        exact ihr
      | some e' =>
        have hg2 : g' park = some e' := by rw [← hgg]; exact hg
        rw [List.filterMap_cons_some hg, List.filterMap_cons_some hg2,
          List.filter_cons, List.filter_cons, ihr]

/-- If every park of the list carrying identifier `x` has a failed
(`null`) call, the assembled result holds no entry for `x`. -/
theorem aggEntries_lookup_none (x : String)
    (g : UpstreamPark → Option (String × PredictOut)) :
    ∀ l : List UpstreamPark,
      (∀ park ∈ l, ∀ e, g park = some e → e.1 = park.park_id) →
      (∀ park ∈ l, park.park_id = x → g park = none) →
      List.lookup x (l.filterMap g) = none := by
  intro l
  induction l with
  | nil => intro _ _; rfl
  | cons park rest ih =>
    intro hk hx
    have ihr := ih (fun p hp => hk p (List.mem_cons_of_mem _ hp))
                   (fun p hp => hx p (List.mem_cons_of_mem _ hp))
    cases hg : g park with
    | none =>
      rw [List.filterMap_cons_none hg]
      exact ihr
    | some e =>
      have hne : e.1 ≠ x := by
        intro hcontra
        have h0 := hx park (List.mem_cons_self _ _)
          (by rw [← hk park (List.mem_cons_self _ _) e hg, hcontra])
        rw [h0] at hg
        cases hg
      rw [List.filterMap_cons_some hg]
      obtain ⟨k, v⟩ := e
      have hbeq : (x == k) = false := by
        simp only at hne
        exact beq_eq_false_iff_ne.mpr (Ne.symm hne)
      rw [List.lookup_cons, hbeq]
      exact ihr

/-- C7: per-park failures are isolated.  If every model-bearing park with
identifier `x` has a failing call (thrown fetch or error response), the run
still completes with no top-level error, the result simply holds no entry
for `x`, and the entries of all other parks are exactly those of a run
whose calls agree everywhere but on `x` (e.g. one where `x` succeeds). -/
theorem claim_C7_per_park_failures_isolated
    (parks : List UpstreamPark) (selectedMapDate now x : String)
    (oracle oracle' : String → ParkFetch)
    (hfail : ∀ park ∈ parks, park.has_model = true → park.park_id = x →
        parkCallFailed selectedMapDate park (oracle park.park_id) now)
    (hagree : ∀ pid, pid ≠ x → oracle pid = oracle' pid) :
    (loadMapPredictions parks selectedMapDate oracle now).error = none
    ∧ List.lookup x (loadMapPredictions parks selectedMapDate oracle now).mapPredictions = none
    ∧ (loadMapPredictions parks selectedMapDate oracle now).mapPredictions.filter
        (fun e => e.1 != x)
      = (loadMapPredictions parks selectedMapDate oracle' now).mapPredictions.filter
        (fun e => e.1 != x) := by
  refine ⟨rfl, ?_, ?_⟩
  · simp only [loadMapPredictions]
    rw [filterMap_id_map]
    apply aggEntries_lookup_none x (parkCall selectedMapDate oracle now)
      (parks.filter (fun p => p.has_model))
    · intro park _ e h
      exact parkCall_key selectedMapDate now oracle park e h
    · intro park hmem hpid
      have hmem' := List.mem_filter.mp hmem
      exact parkCall_failed_none selectedMapDate now oracle park
        (hfail park hmem'.1 hmem'.2 hpid)
  · simp only [loadMapPredictions]
    rw [filterMap_id_map, filterMap_id_map]
    apply aggEntries_filter_ne_congr x (parkCall selectedMapDate oracle now)
      (parkCall selectedMapDate oracle' now) (parks.filter (fun p => p.has_model))
    · intro park _ e h
      exact parkCall_key selectedMapDate now oracle park e h
    · intro park _ e h
      exact parkCall_key selectedMapDate now oracle' park e h
    · intro park _ hpid
      unfold parkCall
      rw [hagree park.park_id hpid]

/-- C7 (witness): a two-park run where the `"YELL"` call throws while
`"GRCA"` succeeds — no aggregate error, no `"YELL"` entry, and the other
entries match the run where `"YELL"` succeeds too. -/
theorem claim_C7_per_park_failures_isolated_witness :
    (loadMapPredictions
        [⟨"YELL", "Yellowstone", "WY", "IM", "National Park", true, none, none⟩,
         ⟨"GRCA", "Grand Canyon", "AZ", "IM", "National Park", true, none, none⟩]
        "2025-07-05"
        (fun pid => if pid = "YELL" then ParkFetch.localFail
          else .upstream (.resp 200 "" (some ⟨true, "GRCA",
            some [⟨"2025-07-05", 1200, 900, 1500, "80%"⟩], none⟩)))
        "t").error = none
    ∧ List.lookup "YELL"
        (loadMapPredictions
          [⟨"YELL", "Yellowstone", "WY", "IM", "National Park", true, none, none⟩,
           ⟨"GRCA", "Grand Canyon", "AZ", "IM", "National Park", true, none, none⟩]
          "2025-07-05"
          (fun pid => if pid = "YELL" then ParkFetch.localFail
            else .upstream (.resp 200 "" (some ⟨true, "GRCA",
              some [⟨"2025-07-05", 1200, 900, 1500, "80%"⟩], none⟩)))
          "t").mapPredictions = none
    ∧ (loadMapPredictions
          [⟨"YELL", "Yellowstone", "WY", "IM", "National Park", true, none, none⟩,
           ⟨"GRCA", "Grand Canyon", "AZ", "IM", "National Park", true, none, none⟩]
          "2025-07-05"
          (fun pid => if pid = "YELL" then ParkFetch.localFail
            else .upstream (.resp 200 "" (some ⟨true, "GRCA",
              some [⟨"2025-07-05", 1200, 900, 1500, "80%"⟩], none⟩)))
          "t").mapPredictions.filter (fun e => e.1 != "YELL")
      = (loadMapPredictions
          [⟨"YELL", "Yellowstone", "WY", "IM", "National Park", true, none, none⟩,
           ⟨"GRCA", "Grand Canyon", "AZ", "IM", "National Park", true, none, none⟩]
          "2025-07-05"
          (fun _ => ParkFetch.upstream (.resp 200 "" (some ⟨true, "GRCA",
            some [⟨"2025-07-05", 1200, 900, 1500, "80%"⟩], none⟩)))
          "t").mapPredictions.filter (fun e => e.1 != "YELL") :=
  claim_C7_per_park_failures_isolated
    [⟨"YELL", "Yellowstone", "WY", "IM", "National Park", true, none, none⟩,
     ⟨"GRCA", "Grand Canyon", "AZ", "IM", "National Park", true, none, none⟩]
    "2025-07-05" "t" "YELL"
    (fun pid => if pid = "YELL" then ParkFetch.localFail
      else .upstream (.resp 200 "" (some ⟨true, "GRCA",
        some [⟨"2025-07-05", 1200, 900, 1500, "80%"⟩], none⟩)))
    (fun _ => ParkFetch.upstream (.resp 200 "" (some ⟨true, "GRCA",
      some [⟨"2025-07-05", 1200, 900, 1500, "80%"⟩], none⟩)))
    (by
      intro park _ _ hpid
      rw [hpid]
      exact trivial)
    (by
      intro pid h
      simp only [if_neg h])
